import Mathlib

/-!
Verification of the OpenVINO Optimum conversion pass
(`olive/passes/openvino/optimum_intel.py`).

The pass is a configuration-driven dispatcher: it validates a configuration
bag, selects one of several quantization paths, invokes an external export
library, and packages the produced `.xml` artifacts into model handlers.
We embed the Python dictionaries, the validation and quantization-path
selection logic, and the artifact-packaging logic, and prove the spec's
claims about them.  External library calls (the export itself,
`get_default_int4_config`, `_DEFAULT_4BIT_CONFIG`,
`_infer_library_from_model_name_or_path`) are modelled as parameters: their
results are inputs to the embedded functions, exactly as the Python code
consumes them.
-/

/-- A Python value as it occurs in the configuration dictionaries of this
pass: strings, integers, decimal floats (`vFloat m e` renders the literal
`m * 10 ^ (-e)`, e.g. `vFloat 8 1` is `0.8`), and booleans.  Python `None`
is represented by `Option.none` at the use sites. -/
inductive PyVal where
  | vStr : String → PyVal
  | vInt : Int → PyVal
  | vFloat : Int → Nat → PyVal
  | vBool : Bool → PyVal
deriving DecidableEq, Repr

/-- A Python dict with string keys, as an association list.  A key mapped to
`Option.none` models a key that is present with value `None`. -/
abbrev PyDict := List (String × Option PyVal)

/-- Python `d.get(k, dflt)`: the stored value (which may be `None`) when the
key is present, otherwise the default. -/
def pyGetD (d : PyDict) (k : String) (dflt : Option PyVal) : Option PyVal :=
  match d.lookup k with
  | some v => v
  | none => dflt

/-- Python `d.get(k)` (default `None`). -/
def pyGet (d : PyDict) (k : String) : Option PyVal :=
  pyGetD d k none

/-- Python `d[k] = v`: replace the binding if the key is present, else append. -/
def pySet (d : PyDict) (k : String) (v : Option PyVal) : PyDict :=
  match d with
  | [] => [(k, v)]
  | (k2, v2) :: rest => if k2 = k then (k, v) :: rest else (k2, v2) :: pySet rest k v

/-- Python `k in d` (key membership, regardless of the stored value). -/
def pyHasKey (d : PyDict) (k : String) : Bool :=
  (d.lookup k).isSome

/-- Python truthiness of a value. -/
def PyVal.truthy : PyVal → Bool
  | .vStr s => !(s == "")
  | .vInt n => !(n == 0)
  | .vFloat m _ => !(m == 0)
  | .vBool b => b

/-- Python truthiness of a value-or-None. -/
def pyTruthy : Option PyVal → Bool
  | none => false
  | some v => v.truthy

/-- Python `a or b` on values-or-None. -/
def pyOr (a b : Option PyVal) : Option PyVal :=
  if pyTruthy a then a else b

/-- Python truthiness of an optional dict (`None` and `{}` are falsy). -/
def optDictTruthy : Option PyDict → Bool
  | none => false
  | some d => !d.isEmpty

/-- `d.get(k)` lifted to an optional dict; `None.get` is never reached in the
source because every access is guarded by a truthiness test. -/
def optPyGet (d : Option PyDict) (k : String) : Option PyVal :=
  match d with
  | none => none
  | some dd => pyGet dd k

/-- `prep_wc_config(quant_cfg, default_cfg)`: build the weight-compression
config dict for OpenVINO, from the source. -/
def prep_wc_config (quant_cfg default_cfg : PyDict) : PyDict :=
  let is_int8 := pyGet quant_cfg "weight_format" = some (PyVal.vStr "int8")
  [("bits", some (if is_int8 then PyVal.vInt 8 else PyVal.vInt 4)),
   ("ratio", if is_int8 then some (PyVal.vFloat 1 0)
             else pyOr (pyGet quant_cfg "ratio") (pyGet default_cfg "ratio")),
   ("sym", pyGetD quant_cfg "sym" (some (PyVal.vBool false))),
   ("group_size", if is_int8 then some (PyVal.vInt (-1)) else pyGet quant_cfg "group_size"),
   ("all_layers", if is_int8 then none
                  else pyGetD quant_cfg "all_layers" (some (PyVal.vBool false))),
   ("dataset", pyGet quant_cfg "dataset"),
   ("num_samples", pyGet quant_cfg "num_samples"),
   ("quant_method", some (PyVal.vStr
      (if pyTruthy (pyGetD quant_cfg "awq" (some (PyVal.vBool false))) then "awq" else "default"))),
   ("sensitivity_metric", pyGet quant_cfg "sensitivity_metric"),
   ("scale_estimation", pyGet quant_cfg "scale_estimation"),
   ("gptq", pyGet quant_cfg "gptq"),
   ("lora_correction", pyGet quant_cfg "lora_correction"),
   ("dtype", pyGet quant_cfg "weight_format"),
   ("backup_precision", pyGet quant_cfg "backup_precision")]

/-- `prep_q_config(quant_cfg)`: build the full-quantization config dict, from
the source. -/
def prep_q_config (quant_cfg : PyDict) : PyDict :=
  [("dtype", pyGet quant_cfg "quant_mode"),
   ("bits", some (PyVal.vInt 8)),
   ("sym", pyGetD quant_cfg "sym" (some (PyVal.vBool false))),
   ("dataset", pyGet quant_cfg "dataset"),
   ("num_samples", pyGet quant_cfg "num_samples"),
   ("smooth_quant_alpha", pyGet quant_cfg "smooth_quant_alpha"),
   ("trust_remote_code", pyGetD quant_cfg "trust_remote_code" (some (PyVal.vBool false)))]

/-- `no_compression_parameter_provided(q_config)`, from the source: true iff
all twelve compression-shaping keys are absent or `None`. -/
def no_compression_parameter_provided (q_config : PyDict) : Bool :=
  [pyGet q_config "ratio", pyGet q_config "group_size", pyGet q_config "sym",
   pyGet q_config "all_layers", pyGet q_config "dataset", pyGet q_config "num_samples",
   pyGet q_config "awq", pyGet q_config "scale_estimation", pyGet q_config "gptq",
   pyGet q_config "lora_correction", pyGet q_config "sensitivity_metric",
   pyGet q_config "backup_precision"].all Option.isNone

/-- `no_quantization_parameter_provided(q_config)`, from the source: true iff
the four quantization-shaping keys are absent or `None`. -/
def no_quantization_parameter_provided (q_config : PyDict) : Bool :=
  [pyGet q_config "sym", pyGet q_config "dataset", pyGet q_config "num_samples",
   pyGet q_config "smooth_quant_alpha"].all Option.isNone

theorem pyGetD_nil (k : String) (dflt : Option PyVal) : pyGetD [] k dflt = dflt := rfl

theorem pyGetD_cons (k k2 : String) (v dflt : Option PyVal) (rest : PyDict) :
    pyGetD ((k2, v) :: rest) k dflt = if k == k2 then v else pyGetD rest k dflt := by
  cases h : k == k2 <;> simp [pyGetD, List.lookup, h]

theorem pyGet_nil (k : String) : pyGet [] k = none := rfl

theorem pyGet_cons (k k2 : String) (v : Option PyVal) (rest : PyDict) :
    pyGet ((k2, v) :: rest) k = if k == k2 then v else pyGet rest k := by
  simp [pyGet, pyGetD_cons]

/-- Claim C3: for every quantization dictionary whose `weight_format` is
`"int8"`, the weight-compression config built by `prep_wc_config` has
`bits = 8`, `ratio = 1.0` and `group_size = -1`, regardless of any `ratio`
or `group_size` values also supplied in the dictionary (and regardless of
the default config). -/
theorem prep_wc_config_int8_forces_fields (quant_cfg default_cfg : PyDict)
    (h : pyGet quant_cfg "weight_format" = some (PyVal.vStr "int8")) :
    pyGet (prep_wc_config quant_cfg default_cfg) "bits" = some (PyVal.vInt 8) ∧
    pyGet (prep_wc_config quant_cfg default_cfg) "ratio" = some (PyVal.vFloat 1 0) ∧
    pyGet (prep_wc_config quant_cfg default_cfg) "group_size" = some (PyVal.vInt (-1)) := by
  simp only [prep_wc_config, h]
  simp [pyGet_cons, pyGet_nil]

/-- Witness for C3 at a concrete input that also supplies `ratio = 0.4` and
`group_size = 128`. -/
theorem prep_wc_config_int8_forces_fields_witness :
    pyGet [("weight_format", some (PyVal.vStr "int8")),
           ("ratio", some (PyVal.vFloat 4 1)),
           ("group_size", some (PyVal.vInt 128))] "weight_format"
      = some (PyVal.vStr "int8") ∧
    (pyGet (prep_wc_config [("weight_format", some (PyVal.vStr "int8")),
           ("ratio", some (PyVal.vFloat 4 1)),
           ("group_size", some (PyVal.vInt 128))] []) "bits" = some (PyVal.vInt 8) ∧
     pyGet (prep_wc_config [("weight_format", some (PyVal.vStr "int8")),
           ("ratio", some (PyVal.vFloat 4 1)),
           ("group_size", some (PyVal.vInt 128))] []) "ratio" = some (PyVal.vFloat 1 0) ∧
     pyGet (prep_wc_config [("weight_format", some (PyVal.vStr "int8")),
           ("ratio", some (PyVal.vFloat 4 1)),
           ("group_size", some (PyVal.vInt 128))] []) "group_size"
       = some (PyVal.vInt (-1))) :=
  ⟨by decide,
   prep_wc_config_int8_forces_fields
     [("weight_format", some (PyVal.vStr "int8")),
      ("ratio", some (PyVal.vFloat 4 1)),
      ("group_size", some (PyVal.vInt 128))] [] (by decide)⟩

/-- The allow-list for `extra_args.library` (from `validate_config`). -/
def allowed_libraries : List String :=
  ["transformers", "diffusers", "timm", "sentence_transformers", "open_clip"]

/-- The allow-list for `extra_args.framework`. -/
def allowed_frameworks : List String := ["pt", "tf"]

/-- The allow-list for `ov_quant_config.weight_format`. -/
def allowed_weight_formats : List String := ["fp32", "fp16", "int8", "int4", "mxfp4", "nf4"]

/-- The allow-list for `ov_quant_config.quant_mode`. -/
def allowed_quant_modes : List String :=
  ["int8", "f8e4m3", "f8e5m2", "nf4_f8e4m3", "nf4_f8e5m2", "int4_f8e4m3", "int4_f8e5m2"]

/-- The allow-list for `ov_quant_config.backup_precision`. -/
def allowed_backup_precisions : List String := ["none", "int8_sym", "int8_asym"]

/-- Python `v in allowed` for a value-or-None against a list of strings:
only a string equal to a member is `in` the list. -/
def valInStrList (v : Option PyVal) (allowed : List String) : Bool :=
  match v with
  | some (PyVal.vStr s) => allowed.contains s
  | _ => false

/-- The pass configuration bag: `components`, `device`, `extra_args`,
`ov_quant_config` (from `_default_config`).  `user_script` data config keys
are framework-level and unused by the embedded logic. -/
structure PassConfig where
  components : Option (List String)
  device : String
  extra_args : Option PyDict
  ov_quant_config : Option PyDict
deriving DecidableEq

/-- One validation clause of `validate_config`: the dict is truthy, the key
maps to a non-`None` value, and that value is not in the allow-list (in which
case the source logs an error and returns `False`). -/
def enumCheckFails (d : Option PyDict) (k : String) (allowed : List String) : Bool :=
  optDictTruthy d && (optPyGet d k).isSome && !(valInStrList (optPyGet d k) allowed)

/-- `OpenVINOOptimumConversion.validate_config`, from the source.  The call
to the base class `super().validate_config` is outside the available sources
and is modelled by the boolean `superValid` (the spec's validator contract
describes only the five allow-list checks). -/
def validate_config (superValid : Bool) (config : PassConfig) : Bool :=
  if !superValid then false
  else if enumCheckFails config.extra_args "library" allowed_libraries then false
  else if enumCheckFails config.extra_args "framework" allowed_frameworks then false
  else if enumCheckFails config.ov_quant_config "weight_format" allowed_weight_formats then false
  else if enumCheckFails config.ov_quant_config "quant_mode" allowed_quant_modes then false
  else if enumCheckFails config.ov_quant_config "backup_precision" allowed_backup_precisions then
    false
  else true

/-- The spec's reading of one enum field for claim C2: the field is valid iff
it is absent/unset (`None`, missing key, or whole dict unset) or its value is
a string in the fixed allow-list.  This definition follows the spec's words
and is compared with `validate_config` from the source. -/
def enumFieldValid (d : Option PyDict) (k : String) (allowed : List String) : Bool :=
  match optPyGet d k with
  | none => true
  | some (PyVal.vStr s) => allowed.contains s
  | some _ => false

theorem enumCheckFails_eq_not_valid (d : Option PyDict) (k : String) (allowed : List String) :
    enumCheckFails d k allowed = !enumFieldValid d k allowed := by
  cases d with
  | none => rfl
  | some dd =>
    cases dd with
    | nil => rfl
    | cons p rest =>
      cases hv : pyGet (p :: rest) k with
      | none => simp [enumCheckFails, enumFieldValid, optPyGet, optDictTruthy, hv]
      | some v =>
        cases v <;>
          simp [enumCheckFails, enumFieldValid, optPyGet, optDictTruthy, hv, valInStrList]

/-- Claim C2: for every configuration bag, `validate_config` (with the base
validation accepting) returns true if and only if each of the five enum
fields (`extra_args.library`, `extra_args.framework`,
`ov_quant_config.weight_format`, `ov_quant_config.quant_mode`,
`ov_quant_config.backup_precision`) is either absent/unset or takes a value
in its fixed allow-list; absence of a key is always treated as valid. -/
theorem validate_config_iff_enum_fields_allowed (config : PassConfig) :
    validate_config true config = true ↔
      (enumFieldValid config.extra_args "library" allowed_libraries = true ∧
       enumFieldValid config.extra_args "framework" allowed_frameworks = true ∧
       enumFieldValid config.ov_quant_config "weight_format" allowed_weight_formats = true ∧
       enumFieldValid config.ov_quant_config "quant_mode" allowed_quant_modes = true ∧
       enumFieldValid config.ov_quant_config "backup_precision" allowed_backup_precisions
         = true) := by
  simp [validate_config, enumCheckFails_eq_not_valid]

/-- An error raised by `_run_for_config` before or after the export call. -/
inductive PassError where
  | valueError : String → PassError
  | notImplementedError : String → PassError
  | assertionError : List String → List String → PassError
deriving DecidableEq, Repr

/-- Whether an error is a `NotImplementedError`. -/
def PassError.isNotImplemented : PassError → Bool
  | .notImplementedError _ => true
  | _ => false

/-- Error message raised when compression parameters are provided but the
weight format is unset (source lines 177-180). -/
def compressionMissingFormatMsg : String :=
  "Some compression parameters are provided, but the weight format is not specified. " ++
  "Please provide it with weight_format key in ov_quant_config dictionary."

/-- Error message raised by the (inverted) quantization-parameter check
(source lines 182-185). -/
def quantModeMissingMsg : String :=
  "Some quantization parameters are provided, but the quant mode is not specified. " ++
  "Please provide it with quant_mode key in ov_quant_config dictionary."

/-- Error message raised when full quantization is requested without a
dataset (source lines 204-207). -/
def datasetRequiredMsg : String :=
  "Dataset is required for full quantization. " ++
  "Please provide it in ov_quant_config dictionary under 'dataset' key"

/-- Error message raised for mixed-precision quantization with the diffusers
library (source line 215). -/
def mixedDiffusersMsg : String :=
  "Mixed precision quantization isn't supported for diffusers."

/-- The quantization path selected by `_run_for_config` from
`config.ov_quant_config` (the value of `ov_config`, tagged by how it was
built). -/
inductive QuantSelection where
  | noQuant
  | castOnly : PyVal → QuantSelection
  | weightOnly : Bool → PyDict → QuantSelection
  | fullQuant : PyDict → QuantSelection
  | mixed : PyDict → PyDict → QuantSelection
deriving DecidableEq, Repr

/-- Source lines 198-199: when the chosen weight-compression config has a
dataset, `trust_remote_code` from the quantization dictionary (default
`False`) is copied into it. -/
def attachTrustRemoteCode (quant_config quant_dict : PyDict) : PyDict :=
  if pyGet quant_config "dataset" ≠ none then
    pySet quant_config "trust_remote_code"
      (pyGetD quant_dict "trust_remote_code" (some (PyVal.vBool false)))
  else quant_config

/-- The string carried by a `PyVal`, for values already known to be strings
(used for `quant_mode.split("_")`, whose argument the guarding membership
test has pinned to one of four string literals). -/
def pyValStr : PyVal → String
  | .vStr s => s
  | _ => ""

/-- Source lines 159-171: the effective library name.  `extra_args["library"]`
wins when present; otherwise the name inferred by the external
`_infer_library_from_model_name_or_path` (given here as `inferredLib`) is
used, with `sentence_transformers` replaced by `transformers`. -/
def resolveLibName (extra_args : PyDict) (inferredLib : String) : PyVal :=
  match pyGet extra_args "library" with
  | some v => v
  | none =>
    PyVal.vStr (if inferredLib = "sentence_transformers" then "transformers" else inferredLib)

/-- Source lines 149-157: `extra_args` is copied, `device` is set, and
`trust_remote_code` is taken from the model's load kwargs when those are
truthy and the key is not already present.  `loadKwargsTrust = some t` models
truthy load kwargs whose `trust_remote_code` attribute is `t`. -/
def effectiveExtraArgs (extra_args : Option PyDict) (device : String)
    (loadKwargsTrust : Option PyVal) : PyDict :=
  let ea := pySet (extra_args.getD []) "device" (some (PyVal.vStr device))
  match loadKwargsTrust with
  | some t => if pyHasKey ea "trust_remote_code" then ea
              else pySet ea "trust_remote_code" (some t)
  | none => ea

/-- Source lines 173-233: build `ov_config` from `config.ov_quant_config`.
The external constants `_DEFAULT_4BIT_CONFIG` and
`get_default_int4_config(model_name_or_path)` are passed in as the dicts
`default_4bit_config` and `default_int4_config`.  In the mixed-precision
branch the source finally wraps the two sub-configs together with
`self.args.num_samples`, `self.args.dataset` and `self.args.trust_remote_code`
(attributes of the enclosing pass object, not defined in the available
sources); the result is modelled by the `mixed` tag carrying the two
sub-configs, whose construction is fully embedded. -/
def selectQuantConfig (ov_quant_config : Option PyDict) (lib_name : PyVal)
    (default_4bit_config default_int4_config : PyDict) : Except PassError QuantSelection :=
  match ov_quant_config with
  | none => .ok .noQuant
  | some qd =>
    if qd.isEmpty then .ok .noQuant
    else if pyGet qd "weight_format" = none ∧ pyGet qd "quant_mode" = none then
      if ¬ no_compression_parameter_provided qd then
        .error (.valueError compressionMissingFormatMsg)
      else if no_quantization_parameter_provided qd then
        .error (.valueError quantModeMissingMsg)
      else .ok .noQuant
    else if pyGet qd "weight_format" = some (PyVal.vStr "fp16") ∨
            pyGet qd "weight_format" = some (PyVal.vStr "fp32") then
      .ok (.castOnly ((pyGet qd "weight_format").getD (PyVal.vStr "")))
    else if pyGet qd "weight_format" ≠ none then
      if no_compression_parameter_provided qd ∧
          pyGet qd "weight_format" = some (PyVal.vStr "int4") then
        .ok (.weightOnly true (attachTrustRemoteCode default_int4_config qd))
      else
        .ok (.weightOnly false (attachTrustRemoteCode (prep_wc_config qd default_4bit_config) qd))
    else
      if pyGet qd "dataset" = none then
        .error (.valueError datasetRequiredMsg)
      else if pyGet qd "quant_mode" = some (PyVal.vStr "nf4_f8e4m3") ∨
              pyGet qd "quant_mode" = some (PyVal.vStr "nf4_f8e5m2") ∨
              pyGet qd "quant_mode" = some (PyVal.vStr "int4_f8e4m3") ∨
              pyGet qd "quant_mode" = some (PyVal.vStr "int4_f8e5m2") then
        if lib_name = PyVal.vStr "diffusers" then
          .error (.notImplementedError mixedDiffusersMsg)
        else
          let parts := (pyValStr ((pyGet qd "quant_mode").getD (PyVal.vStr ""))).splitOn "_"
          let wc_dtype := (parts.get? 0).getD ""
          let q_dtype := (parts.get? 1).getD ""
          let wc_config := pySet (prep_wc_config qd default_4bit_config) "dtype"
            (some (PyVal.vStr wc_dtype))
          let q_config := pySet (prep_q_config qd) "dtype" (some (PyVal.vStr q_dtype))
          .ok (.mixed wc_config q_config)
      else
        .ok (.fullQuant (prep_q_config qd))

/-- Index of the last `.` in a list of characters, if any. -/
def lastDotIdx (cs : List Char) : Option Nat :=
  (List.range cs.length).foldl (fun acc i => if cs.get? i = some '.' then some i else acc) none

/-- `pathlib.Path(name).suffix` for a bare file name: the part from the last
dot, unless that dot is the first or last character. -/
def pathSuffix (name : String) : String :=
  let cs := name.data
  match lastDotIdx cs with
  | some i => if 0 < i ∧ i < cs.length - 1 then String.mk (cs.drop i) else ""
  | none => ""

/-- `pathlib.Path(name).stem` for a bare file name: the part before the last
dot, unless that dot is the first or last character. -/
def pathStem (name : String) : String :=
  let cs := name.data
  match lastDotIdx cs with
  | some i => if 0 < i ∧ i < cs.length - 1 then String.mk (cs.take i) else name
  | none => name

/-- An `OpenVINOModelHandler`, as far as this pass constructs one: the model
path (the shared output directory) and optional model attributes. -/
structure OpenVINOModelHandler where
  model_path : String
  model_attributes : Option PyDict
deriving DecidableEq, Repr

/-- The value returned by `_run_for_config`: a single handler or a
`CompositeModelHandler` over component handlers and component names. -/
inductive RunResult where
  | single : OpenVINOModelHandler → RunResult
  | composite : List OpenVINOModelHandler → List String → RunResult
deriving DecidableEq, Repr

/-- Source lines 332-360: list the output directory for `.xml` files, check
any explicitly requested components against the exported stems (an assertion
listing requested and exported names on failure; the assertion message reads
the requested list through `config["components"]`, an item access outside the
available sources, modelled from the spec as the requested component list),
then package: exactly one component yields a single handler on the output
directory, otherwise one handler per component name, all sharing the output
directory, in component-name order. -/
def packageComponents (output_model_path : String) (dir_files : List String)
    (components_config : Option (List String)) (model_attributes : Option PyDict) :
    Except PassError RunResult :=
  let exported_models := (dir_files.filter (fun n => pathSuffix n = ".xml")).map pathStem
  let cfg_components := components_config.getD []
  if cfg_components ≠ [] ∧ ¬ (∀ c ∈ cfg_components, c ∈ exported_models) then
    .error (.assertionError cfg_components exported_models)
  else
    let components := if cfg_components ≠ [] then cfg_components else exported_models
    if components.length = 1 then
      .ok (.single { model_path := output_model_path, model_attributes := none })
    else
      .ok (.composite
        (components.map (fun _ =>
          { model_path := output_model_path, model_attributes := model_attributes }))
        components)

/-- `OpenVINOOptimumConversion._run_for_config`, composed from the embedded
pieces.  Modelled from the spec where the source calls external code: the
model-family routing (spec section 4.3) only chooses which external export
call populates the output directory, and its effect is abstracted as
`exported_dir_files`, the directory contents after the export returns; the
external `_infer_library_from_model_name_or_path`, `_DEFAULT_4BIT_CONFIG`
and `get_default_int4_config` results are the parameters `inferredLib`,
`default_4bit_config` and `default_int4_config`.  Every error raised before
the routing (the quantization-path selection errors) is returned for every
possible directory content, i.e. before any export attempt. -/
def run_for_config (config : PassConfig) (inferredLib : String)
    (loadKwargsTrust : Option PyVal) (default_4bit_config default_int4_config : PyDict)
    (model_attributes : Option PyDict) (exported_dir_files : List String)
    (output_model_path : String) : Except PassError RunResult := do
  let extra_args := effectiveExtraArgs config.extra_args config.device loadKwargsTrust
  let lib_name := resolveLibName extra_args inferredLib
  let _ov_config ← selectQuantConfig config.ov_quant_config lib_name
    default_4bit_config default_int4_config
  packageComponents output_model_path exported_dir_files config.components model_attributes

theorem pyGet_ne_none_not_isEmpty (qd : PyDict) (k : String) (h : pyGet qd k ≠ none) :
    qd.isEmpty = false := by
  cases qd with
  | nil => exact absurd rfl h
  | cons p rest => rfl

theorem no_compression_false_not_isEmpty (qd : PyDict)
    (h : no_compression_parameter_provided qd = false) : qd.isEmpty = false := by
  cases qd with
  | nil => simp [no_compression_parameter_provided, pyGet_nil] at h
  | cons p rest => rfl

/-- Claim C4: for every quantization dictionary that sets `weight_format` to
`"int4"` and provides none of the twelve compression-shaping parameters, the
weight-only compression path selects the model-specific default int4
configuration (`get_default_int4_config`, given as `default_int4_config`)
rather than building a config with the generic `prep_wc_config` builder. -/
theorem int4_no_params_selects_default_config (qd : PyDict) (lib : PyVal)
    (default_4bit_config default_int4_config : PyDict)
    (hwf : pyGet qd "weight_format" = some (PyVal.vStr "int4"))
    (hcp : no_compression_parameter_provided qd = true) :
    selectQuantConfig (some qd) lib default_4bit_config default_int4_config =
      .ok (.weightOnly true (attachTrustRemoteCode default_int4_config qd)) := by
  have hne : qd.isEmpty = false := pyGet_ne_none_not_isEmpty qd "weight_format" (by simp [hwf])
  simp [selectQuantConfig, hne, hwf, hcp]

/-- Witness for C4 at `ov_quant_config = {weight_format: "int4"}`. -/
theorem int4_no_params_selects_default_config_witness :
    (pyGet [("weight_format", some (PyVal.vStr "int4"))] "weight_format"
        = some (PyVal.vStr "int4") ∧
     no_compression_parameter_provided [("weight_format", some (PyVal.vStr "int4"))] = true) ∧
    selectQuantConfig (some [("weight_format", some (PyVal.vStr "int4"))])
        (PyVal.vStr "transformers") [] [("dataset", some (PyVal.vStr "wiki"))] =
      .ok (.weightOnly true
        (attachTrustRemoteCode [("dataset", some (PyVal.vStr "wiki"))]
          [("weight_format", some (PyVal.vStr "int4"))])) :=
  ⟨⟨by decide, by decide⟩,
   int4_no_params_selects_default_config [("weight_format", some (PyVal.vStr "int4"))]
     (PyVal.vStr "transformers") [] [("dataset", some (PyVal.vStr "wiki"))]
     (by decide) (by decide)⟩

/-- Claim C6 (code bug witness): with `ov_quant_config` non-empty and both
`weight_format` and `quant_mode` unset, the source raises the "quant mode is
not specified" error exactly when NO quantization-shaping parameter is
provided, and raises nothing when one is: the guard
`if no_quantization_parameter_provided(...)` lacks the negation that its own
error message and the adjacent compression check imply.  Here
`{smooth_quant_alpha: 0.5}` (a shaping parameter, no quant mode) passes with
no error, while `{trust_remote_code: True}` (no shaping parameter) raises
the error. -/
theorem quantization_parameter_check_inverted :
    selectQuantConfig (some [("smooth_quant_alpha", some (PyVal.vFloat 5 1))])
        (PyVal.vStr "transformers") [] [] = .ok .noQuant ∧
    selectQuantConfig (some [("trust_remote_code", some (PyVal.vBool true))])
        (PyVal.vStr "transformers") [] [] =
      .error (.valueError quantModeMissingMsg) := by
  constructor <;> rfl

/-- Claim C8: for every configuration whose quantization dictionary sets
`quant_mode` but not `weight_format` and provides no dataset, the pass fails
with the dataset-required configuration error before any export attempt (the
error is returned for every possible output-directory content). -/
theorem full_quant_without_dataset_fatal (config : PassConfig) (inferredLib : String)
    (loadKwargsTrust : Option PyVal) (default_4bit_config default_int4_config : PyDict)
    (attrs : Option PyDict) (files : List String) (out : String) (qd : PyDict)
    (hq : config.ov_quant_config = some qd)
    (hqm : pyGet qd "quant_mode" ≠ none)
    (hwf : pyGet qd "weight_format" = none)
    (hds : pyGet qd "dataset" = none) :
    run_for_config config inferredLib loadKwargsTrust default_4bit_config default_int4_config
        attrs files out = .error (.valueError datasetRequiredMsg) := by
  have hne : qd.isEmpty = false := pyGet_ne_none_not_isEmpty qd "quant_mode" hqm
  simp [run_for_config, selectQuantConfig, hq, hne, hwf, hqm, hds, Bind.bind, Except.bind]

/-- Witness for C8 at `ov_quant_config = {quant_mode: "int8"}`. -/
theorem full_quant_without_dataset_fatal_witness :
    ((⟨none, "cpu", none, some [("quant_mode", some (PyVal.vStr "int8"))]⟩ :
        PassConfig).ov_quant_config = some [("quant_mode", some (PyVal.vStr "int8"))] ∧
     pyGet [("quant_mode", some (PyVal.vStr "int8"))] "quant_mode" ≠ none ∧
     pyGet [("quant_mode", some (PyVal.vStr "int8"))] "weight_format" = none ∧
     pyGet [("quant_mode", some (PyVal.vStr "int8"))] "dataset" = none) ∧
    run_for_config ⟨none, "cpu", none, some [("quant_mode", some (PyVal.vStr "int8"))]⟩
        "transformers" none [] [] none ["openvino_model.xml"] "out" =
      .error (.valueError datasetRequiredMsg) :=
  ⟨⟨rfl, by decide, by decide, by decide⟩,
   full_quant_without_dataset_fatal
     ⟨none, "cpu", none, some [("quant_mode", some (PyVal.vStr "int8"))]⟩
     "transformers" none [] [] none ["openvino_model.xml"] "out"
     [("quant_mode", some (PyVal.vStr "int8"))] rfl (by decide) (by decide) (by decide)⟩

/-- Counterexample for claim C5: with the quantization dictionary exactly
`{quant_mode: "nf4_f8e4m3"}` (so no dataset) and the inferred library
`diffusers`, the pass fails with the dataset-required `ValueError`, which is
not a "not implemented" error: the dataset check precedes the mixed-precision
diffusers check. -/
theorem mixed_mode_without_dataset_not_notimplemented :
    run_for_config ⟨none, "cpu", none, some [("quant_mode", some (PyVal.vStr "nf4_f8e4m3"))]⟩
        "diffusers" none [] [] none [] "out" =
      .error (.valueError datasetRequiredMsg) ∧
    PassError.isNotImplemented (.valueError datasetRequiredMsg) = false := by
  constructor <;> rfl

/-- Claim C5 as amended: for every run where the quantization dictionary sets
`quant_mode` to `"nf4_f8e4m3"` with `weight_format` unset and a dataset
provided, and the resolved model library is `diffusers`, the pass fails with
the "not implemented" error before any export attempt (the error is returned
for every possible output-directory content). -/
theorem mixed_mode_diffusers_not_implemented (config : PassConfig) (inferredLib : String)
    (loadKwargsTrust : Option PyVal) (default_4bit_config default_int4_config : PyDict)
    (attrs : Option PyDict) (files : List String) (out : String) (qd : PyDict)
    (hq : config.ov_quant_config = some qd)
    (hqm : pyGet qd "quant_mode" = some (PyVal.vStr "nf4_f8e4m3"))
    (hwf : pyGet qd "weight_format" = none)
    (hds : pyGet qd "dataset" ≠ none)
    (hlib : resolveLibName
        (effectiveExtraArgs config.extra_args config.device loadKwargsTrust) inferredLib =
      PyVal.vStr "diffusers") :
    run_for_config config inferredLib loadKwargsTrust default_4bit_config default_int4_config
        attrs files out = .error (.notImplementedError mixedDiffusersMsg) := by
  have hne : qd.isEmpty = false := pyGet_ne_none_not_isEmpty qd "quant_mode" (by simp [hqm])
  simp [run_for_config, selectQuantConfig, hq, hne, hwf, hqm, hds, hlib,
    Bind.bind, Except.bind]

/-- Witness for the amended C5 at
`ov_quant_config = {quant_mode: "nf4_f8e4m3", dataset: "ds"}` with no
`extra_args` and inferred library `diffusers`. -/
theorem mixed_mode_diffusers_not_implemented_witness :
    ((⟨none, "cpu", none, some [("quant_mode", some (PyVal.vStr "nf4_f8e4m3")),
        ("dataset", some (PyVal.vStr "ds"))]⟩ : PassConfig).ov_quant_config =
       some [("quant_mode", some (PyVal.vStr "nf4_f8e4m3")),
             ("dataset", some (PyVal.vStr "ds"))] ∧
     resolveLibName (effectiveExtraArgs none "cpu" none) "diffusers" =
       PyVal.vStr "diffusers") ∧
    run_for_config ⟨none, "cpu", none, some [("quant_mode", some (PyVal.vStr "nf4_f8e4m3")),
        ("dataset", some (PyVal.vStr "ds"))]⟩ "diffusers" none [] [] none [] "out" =
      .error (.notImplementedError mixedDiffusersMsg) :=
  ⟨⟨rfl, by decide⟩,
   mixed_mode_diffusers_not_implemented
     ⟨none, "cpu", none, some [("quant_mode", some (PyVal.vStr "nf4_f8e4m3")),
        ("dataset", some (PyVal.vStr "ds"))]⟩ "diffusers" none [] [] none [] "out"
     [("quant_mode", some (PyVal.vStr "nf4_f8e4m3")), ("dataset", some (PyVal.vStr "ds"))]
     rfl (by decide) (by decide) (by decide) (by decide)⟩

/-- Counterexample for claim C7: the quantization dictionary
`{quant_mode: "int8", ratio: 0.8, dataset: "ds"}` provides the
compression-shaping parameter `ratio` with `weight_format` unset, yet the run
does not fail: it proceeds through full quantization and returns a handler.
The missing-weight_format error is only raised when `quant_mode` is also
unset. -/
theorem compression_param_with_quant_mode_runs :
    run_for_config ⟨none, "cpu", none,
        some [("quant_mode", some (PyVal.vStr "int8")),
              ("ratio", some (PyVal.vFloat 8 1)),
              ("dataset", some (PyVal.vStr "ds"))]⟩
        "transformers" none [] [] none ["openvino_model.xml"] "out" =
      .ok (.single { model_path := "out", model_attributes := none }) := by
  rfl

/-- Claim C7 as amended: for every configuration whose quantization
dictionary provides a compression-shaping parameter while both
`weight_format` and `quant_mode` are unset, the run fails with the fatal
configuration error whose message mentions the missing `weight_format`,
before any export attempt (the error is returned for every possible
output-directory content). -/
theorem compression_params_without_format_fatal (config : PassConfig) (inferredLib : String)
    (loadKwargsTrust : Option PyVal) (default_4bit_config default_int4_config : PyDict)
    (attrs : Option PyDict) (files : List String) (out : String) (qd : PyDict)
    (hq : config.ov_quant_config = some qd)
    (hwf : pyGet qd "weight_format" = none)
    (hqm : pyGet qd "quant_mode" = none)
    (hcp : no_compression_parameter_provided qd = false) :
    run_for_config config inferredLib loadKwargsTrust default_4bit_config default_int4_config
        attrs files out = .error (.valueError compressionMissingFormatMsg) := by
  have hne : qd.isEmpty = false := no_compression_false_not_isEmpty qd hcp
  simp [run_for_config, selectQuantConfig, hq, hne, hwf, hqm, hcp, Bind.bind, Except.bind]

/-- Witness for the amended C7 at `ov_quant_config = {ratio: 0.8}`. -/
theorem compression_params_without_format_fatal_witness :
    ((⟨none, "cpu", none, some [("ratio", some (PyVal.vFloat 8 1))]⟩ :
        PassConfig).ov_quant_config = some [("ratio", some (PyVal.vFloat 8 1))] ∧
     no_compression_parameter_provided [("ratio", some (PyVal.vFloat 8 1))] = false) ∧
    run_for_config ⟨none, "cpu", none, some [("ratio", some (PyVal.vFloat 8 1))]⟩
        "transformers" none [] [] none [] "out" =
      .error (.valueError compressionMissingFormatMsg) :=
  ⟨⟨rfl, by decide⟩,
   compression_params_without_format_fatal
     ⟨none, "cpu", none, some [("ratio", some (PyVal.vFloat 8 1))]⟩
     "transformers" none [] [] none [] "out" [("ratio", some (PyVal.vFloat 8 1))]
     rfl (by decide) (by decide) (by decide)⟩

theorem run_for_config_eq_package (config : PassConfig) (inferredLib : String)
    (loadKwargsTrust : Option PyVal) (default_4bit_config default_int4_config : PyDict)
    (attrs : Option PyDict) (files : List String) (out : String) (sel : QuantSelection)
    (hsel : selectQuantConfig config.ov_quant_config
        (resolveLibName (effectiveExtraArgs config.extra_args config.device loadKwargsTrust)
          inferredLib) default_4bit_config default_int4_config = .ok sel) :
    run_for_config config inferredLib loadKwargsTrust default_4bit_config default_int4_config
        attrs files out = packageComponents out files config.components attrs := by
  simp [run_for_config, hsel, Bind.bind, Except.bind]

/-- Claim C1: when the quantization-path selection succeeds, (a) if the
output directory ends up containing exactly one `.xml` file and `components`
is unset or names exactly that one component, the pass returns a single
non-composite handler referencing the output directory; (b) for every run
yielding two or more components (the requested ones when `components` is
set and they were all exported, else the exported stems), it returns a
composite handler with one component handler per component name, every
handler referencing the same shared output directory, in component-name
order. -/
theorem conversion_result_single_or_composite (config : PassConfig) (inferredLib : String)
    (loadKwargsTrust : Option PyVal) (default_4bit_config default_int4_config : PyDict)
    (attrs : Option PyDict) (files : List String) (out : String) (sel : QuantSelection)
    (hsel : selectQuantConfig config.ov_quant_config
        (resolveLibName (effectiveExtraArgs config.extra_args config.device loadKwargsTrust)
          inferredLib) default_4bit_config default_int4_config = .ok sel) :
    (((files.filter fun n => pathSuffix n = ".xml").map pathStem).length = 1 →
      (config.components = none ∨
        config.components = some ((files.filter fun n => pathSuffix n = ".xml").map pathStem)) →
      run_for_config config inferredLib loadKwargsTrust default_4bit_config default_int4_config
          attrs files out = .ok (.single { model_path := out, model_attributes := none })) ∧
    (∀ comps : List String,
      comps = (if config.components.getD [] ≠ [] then config.components.getD []
               else (files.filter fun n => pathSuffix n = ".xml").map pathStem) →
      2 ≤ comps.length →
      (∀ c ∈ config.components.getD [],
        c ∈ (files.filter fun n => pathSuffix n = ".xml").map pathStem) →
      run_for_config config inferredLib loadKwargsTrust default_4bit_config default_int4_config
          attrs files out =
        .ok (.composite
          (comps.map fun _ => { model_path := out, model_attributes := attrs }) comps)) := by
  rw [run_for_config_eq_package config inferredLib loadKwargsTrust default_4bit_config
    default_int4_config attrs files out sel hsel]
  constructor
  · intro hlen hcomp
    rcases hcomp with hc | hc
    · simp [packageComponents, hc, hlen]
    · have hne : (files.filter fun n => pathSuffix n = ".xml").map pathStem ≠ [] := by
        intro h
        rw [h] at hlen
        exact absurd hlen (by decide)
      simp [packageComponents, hc, hlen, hne]
  · intro comps hcomps hlen2 hall
    have hlen1 : comps.length ≠ 1 := by omega
    by_cases hcfg : config.components.getD [] = []
    · rw [if_neg (by simp [hcfg])] at hcomps
      subst hcomps
      have hlenf : ¬ (List.filter (fun n => decide (pathSuffix n = ".xml")) files).length = 1 := by
        simp only [List.length_map] at hlen1
        exact hlen1
      simp [packageComponents, hcfg, hlenf]
    · rw [if_pos hcfg] at hcomps
      subst hcomps
      simp [packageComponents, hcfg, hlen1]
      intro x hx
      have h2 := hall x hx
      simp only [List.mem_map, List.mem_filter, decide_eq_true_eq] at h2
      obtain ⟨a, ⟨haf, hax⟩, hst⟩ := h2
      exact ⟨a, haf, hax, hst⟩

/-- Witness for C1: a single `.xml` file with `components` unset yields a
single handler; the files `decoder_model.xml` and `decoder_with_past_model.xml`
with `components` unset yield a composite handler with entries named
`decoder_model` and `decoder_with_past_model`, in that order, both on the
shared output directory. -/
theorem conversion_result_single_or_composite_witness :
    run_for_config ⟨none, "cpu", none, none⟩ "transformers" none [] [] none
        ["model.xml"] "out" = .ok (.single { model_path := "out", model_attributes := none }) ∧
    run_for_config ⟨none, "cpu", none, none⟩ "transformers" none [] [] none
        ["decoder_model.xml", "decoder_with_past_model.xml"] "out" =
      .ok (.composite
        [{ model_path := "out", model_attributes := none },
         { model_path := "out", model_attributes := none }]
        ["decoder_model", "decoder_with_past_model"]) :=
  ⟨(conversion_result_single_or_composite ⟨none, "cpu", none, none⟩ "transformers" none [] []
      none ["model.xml"] "out" .noQuant rfl).1 (by decide) (Or.inl rfl),
   by
     have h := (conversion_result_single_or_composite ⟨none, "cpu", none, none⟩ "transformers"
       none [] [] none ["decoder_model.xml", "decoder_with_past_model.xml"] "out" .noQuant
       rfl).2 ["decoder_model", "decoder_with_past_model"] (by decide) (by decide) (by decide)
     simpa using h⟩

/-- Claim C9: when the configuration bag explicitly lists component names and
some listed name does not appear among the stems of the exported `.xml`
files, the pass fails with the assertion error listing the requested and the
actually exported component names, and returns no partial result. -/
theorem missing_requested_component_assertion (config : PassConfig) (inferredLib : String)
    (loadKwargsTrust : Option PyVal) (default_4bit_config default_int4_config : PyDict)
    (attrs : Option PyDict) (files : List String) (out : String) (sel : QuantSelection)
    (reqs : List String) (c : String)
    (hsel : selectQuantConfig config.ov_quant_config
        (resolveLibName (effectiveExtraArgs config.extra_args config.device loadKwargsTrust)
          inferredLib) default_4bit_config default_int4_config = .ok sel)
    (hreq : config.components = some reqs) (hc : c ∈ reqs)
    (hmiss : c ∉ (files.filter fun n => pathSuffix n = ".xml").map pathStem) :
    run_for_config config inferredLib loadKwargsTrust default_4bit_config default_int4_config
        attrs files out =
      .error (.assertionError reqs ((files.filter fun n => pathSuffix n = ".xml").map pathStem)) := by
  rw [run_for_config_eq_package config inferredLib loadKwargsTrust default_4bit_config
    default_int4_config attrs files out sel hsel]
  have hne : reqs ≠ [] := by
    intro h
    subst h
    exact absurd hc (List.not_mem_nil c)
  simp only [packageComponents, hreq, Option.getD_some]
  rw [if_pos ⟨hne, fun hal => hmiss (hal c hc)⟩]

/-- Witness for C9 at `components = ["encoder_model"]` with only
`decoder_model.xml` exported. -/
theorem missing_requested_component_assertion_witness :
    ((⟨some ["encoder_model"], "cpu", none, none⟩ : PassConfig).components =
       some ["encoder_model"] ∧
     "encoder_model" ∈ ["encoder_model"] ∧
     "encoder_model" ∉
       ((["decoder_model.xml"].filter fun n => pathSuffix n = ".xml").map pathStem)) ∧
    run_for_config ⟨some ["encoder_model"], "cpu", none, none⟩ "transformers" none [] [] none
        ["decoder_model.xml"] "out" =
      .error (.assertionError ["encoder_model"]
        ((["decoder_model.xml"].filter fun n => pathSuffix n = ".xml").map pathStem)) :=
  ⟨⟨rfl, by decide, by decide⟩,
   missing_requested_component_assertion ⟨some ["encoder_model"], "cpu", none, none⟩
     "transformers" none [] [] none ["decoder_model.xml"] "out" .noQuant
     ["encoder_model"] "encoder_model" rfl rfl (by decide) (by decide)⟩

/-- Claim C10: when `components` is unset and the export produced no `.xml`
file at all, the pass does not fail: it returns a composite handler with an
empty collection of component handlers and component names. -/
theorem zero_xml_empty_composite (config : PassConfig) (inferredLib : String)
    (loadKwargsTrust : Option PyVal) (default_4bit_config default_int4_config : PyDict)
    (attrs : Option PyDict) (files : List String) (out : String) (sel : QuantSelection)
    (hsel : selectQuantConfig config.ov_quant_config
        (resolveLibName (effectiveExtraArgs config.extra_args config.device loadKwargsTrust)
          inferredLib) default_4bit_config default_int4_config = .ok sel)
    (hcomp : config.components = none)
    (hxml : files.filter (fun n => pathSuffix n = ".xml") = []) :
    run_for_config config inferredLib loadKwargsTrust default_4bit_config default_int4_config
        attrs files out = .ok (.composite [] []) := by
  rw [run_for_config_eq_package config inferredLib loadKwargsTrust default_4bit_config
    default_int4_config attrs files out sel hsel]
  simp [packageComponents, hcomp, hxml]

/-- Witness for C10: a directory containing only `config.json`. -/
theorem zero_xml_empty_composite_witness :
    ((⟨none, "cpu", none, none⟩ : PassConfig).components = none ∧
     (["config.json"].filter fun n => pathSuffix n = ".xml") = []) ∧
    run_for_config ⟨none, "cpu", none, none⟩ "transformers" none [] [] none
        ["config.json"] "out" = .ok (.composite [] []) :=
  ⟨⟨rfl, by decide⟩,
   zero_xml_empty_composite ⟨none, "cpu", none, none⟩ "transformers" none [] [] none
     ["config.json"] "out" .noQuant rfl rfl (by decide)⟩
